import Mathlib

/-!
Verification of the CyberIdol backend session pipeline (src/app.py and
src/services/llm_service.py), shallowly embedded in Lean 4.

Strings are modelled as Lean strings (lists of characters).  The Python
regular expressions used by the emotion-tag parser are embedded as explicit
character-level scanners:

  re.search of the pattern \[(.*?)\] finds, at the leftmost possible start
  position, an opening bracket followed by the shortest run of
  non-newline characters up to a closing bracket; the run is the captured
  group.  re.sub with the same pattern deletes every such non-overlapping
  match, scanning left to right.

External collaborators (speech-to-text, generation, synthesis, the
transcoder, the filesystem) are modelled as oracle parameters: each call's
outcome is an input to the embedded function, and the function's output is
the trace of observable effects the code performs (events sent on the
channel, history mutations, file writes, cleanup), in order.
-/

namespace CyberIdol

/-- Python whitespace characters recognised by str.strip (ASCII subset:
space, tab, newline, carriage return, vertical tab, form feed). -/
def pyIsSpace (c : Char) : Bool :=
  c = ' ' || c = '\t' || c = '\n' || c = '\r' || c = '\x0b' || c = '\x0c'

/-- Python str.strip on a character list: drop whitespace from both ends. -/
def pyStripList (l : List Char) : List Char :=
  ((l.dropWhile pyIsSpace).reverse.dropWhile pyIsSpace).reverse

/-- Python str.strip on a string. -/
def pyStrip (s : String) : String :=
  String.mk (pyStripList s.data)

/-- Match the regex fragment (.*?)\] at the current position: the shortest
run of non-newline characters up to a closing bracket.  Returns the captured
run and the remainder after the closing bracket; fails if a newline or the
end of input is reached first (the dot of the pattern does not match a
newline). -/
def scanInner : List Char → Option (List Char × List Char)
  | [] => none
  | c :: rest =>
    if c = ']' then some ([], rest)
    else if c = '\n' then none
    else (scanInner rest).map (fun p => (c :: p.1, p.2))

/-- Match the whole pattern \[(.*?)\] anchored at the head of the list. -/
def tagAt : List Char → Option (List Char × List Char)
  | '[' :: rest => scanInner rest
  | _ => none

/-- re.search of \[(.*?)\]: the captured group of the leftmost match. -/
def findFirstTag : List Char → Option (List Char)
  | [] => none
  | c :: rest =>
    match tagAt (c :: rest) with
    | some p => some p.1
    | none => findFirstTag rest

/-- re.sub of \[(.*?)\] with the empty string: delete every
non-overlapping match, scanning left to right.  Fuel-indexed so the
recursion is structural; the wrapper supplies fuel equal to the length of
the input, which always suffices because each step consumes at least one
character. -/
def removeTagsAux : Nat → List Char → List Char
  | 0, l => l
  | _ + 1, [] => []
  | fuel + 1, c :: rest =>
    match tagAt (c :: rest) with
    | some p => removeTagsAux fuel p.2
    | none => c :: removeTagsAux fuel rest

/-- re.sub of \[(.*?)\] with the empty string over a list of characters. -/
def removeTags (l : List Char) : List Char :=
  removeTagsAux l.length l

/-- The content of the first bracketed token of a reply, the neutral key
when there is none: the emotion computed by extract_emotion_and_text. -/
def firstEmotion (text : String) : String :=
  match findFirstTag text.data with
  | some inn => String.mk inn
  | none => "neutral"

/-- The reply with all bracketed tokens removed and whitespace trimmed:
the clean text computed by extract_emotion_and_text before the placeholder
substitution. -/
def strippedResidue (text : String) : String :=
  String.mk (pyStripList (removeTags text.data))

/-- src/app.py extract_emotion_and_text: split a raw generated reply into
an emotion key (the first bracketed token's content, neutral if none) and
the clean text (all bracketed tokens removed, whitespace trimmed, with the
placeholder substituted when the residue is empty).  An empty input is
returned unchanged with the neutral key. -/
def extract_emotion_and_text (text : String) : String × String :=
  if text = "" then ("neutral", "")
  else
    let emotion := firstEmotion text
    let cleanText := strippedResidue text
    if cleanText = "" then (emotion, "...") else (emotion, cleanText)

/-- Roles of the records in the shared conversation history. -/
inductive Role where
  | user
  | assistant
deriving DecidableEq, Repr

/-- Outbound events sent over the websocket channel (send_json payloads). -/
inductive Event where
  | info (message : String)
  | transcript (text : String)
  | tts (url : Option String) (text : String) (emotion : String)
  | error (message : String)
deriving DecidableEq, Repr

/-- One observable effect performed by the session code, in program order.
callLLM records the user text handed to DeepSeekClient.get_response and
whether the remote provider was actually contacted; callTTS records the
arguments of tts_client.speak; writeAudio is the write of the synthesized
payload into the public static directory; append is one record pushed onto
the shared conversation history; cleanup is the cleanup_files call over the
raw and transcoded scratch files. -/
inductive Step where
  | emit (e : Event)
  | callLLM (userText : String) (contactedProvider : Bool)
  | callTTS (text : String) (characterId : String) (emotion : String)
  | writeAudio (filename : String)
  | append (role : Role) (content : String)
  | setPrompt (p : String)
  | clearHistory
  | writeScratch
  | transcode
  | cleanup (webmPath wavPath : String)
deriving DecidableEq, Repr

/-- The process-wide shared conversation state: the persona text
(current_system_prompt) and the ordered turn history (conversation_history). -/
structure SharedState where
  systemPrompt : String
  history : List (Role × String)
deriving DecidableEq, Repr

/-- Apply one step to the shared state; only setPrompt, clearHistory and
append mutate it. -/
def applyStep (st : SharedState) : Step → SharedState
  | Step.append r c => { st with history := st.history ++ [(r, c)] }
  | Step.clearHistory => { st with history := [] }
  | Step.setPrompt p => { st with systemPrompt := p }
  | _ => st

/-- Run a trace of steps against the shared state. -/
def runSteps (st : SharedState) (steps : List Step) : SharedState :=
  steps.foldl applyStep st

/-- The events a trace sends to the client, in order. -/
def eventsOf (steps : List Step) : List Event :=
  steps.filterMap fun s =>
    match s with
    | Step.emit e => some e
    | _ => none

/-- The records a trace appends to the shared history, in order. -/
def appendsOf (steps : List Step) : List (Role × String) :=
  steps.filterMap fun s =>
    match s with
    | Step.append r c => some (r, c)
    | _ => none

/-- Whether an event is a terminal tts event. -/
def Event.isTts : Event → Bool
  | Event.tts _ _ _ => true
  | _ => false

/-- Whether an event is a transcript event. -/
def Event.isTranscript : Event → Bool
  | Event.transcript _ => true
  | _ => false

/-- Whether an event is an error event. -/
def Event.isError : Event → Bool
  | Event.error _ => true
  | _ => false

/-- Whether a step belongs to a turn-pipeline run (a collaborator call, a
history append, an audio-file write, or a transcript/terminal event). -/
def Step.isPipelineStep : Step → Bool
  | Step.callLLM _ _ => true
  | Step.callTTS _ _ _ => true
  | Step.writeAudio _ => true
  | Step.append _ _ => true
  | Step.emit (Event.tts _ _ _) => true
  | Step.emit (Event.transcript _) => true
  | _ => false

/-- Whether a step is a call into the generation or synthesis
collaborator. -/
def Step.isCollaboratorCall : Step → Bool
  | Step.callLLM _ _ => true
  | Step.callTTS _ _ _ => true
  | _ => false

/-- src/services/llm_service.py DeepSeekClient.get_response, with the remote
chat-completion call abstracted as an oracle giving either the returned
message content or a failure.  Empty user text short-circuits to a fixed
canned reply without contacting the provider; a provider failure is
re-raised (as RuntimeError); otherwise the returned content is stripped.
The result pairs a flag recording whether the provider was contacted with
the outcome. -/
def get_response (userText : String) (provider : Except Unit String) :
    Bool × Except Unit String :=
  if userText = "" then (false, Except.ok "[neutral] 诶？你在发呆吗？")
  else
    match provider with
    | Except.error _ => (true, Except.error ())
    | Except.ok choice => (true, Except.ok (pyStrip choice))

/-- src/app.py handle_text_flow, the generation stage: the raw reply the
turn continues with.  transcriptText is the (already stripped) user text;
provider is the outcome of the remote generation call.  A generation
failure is caught and replaced by the fixed fallback reply carrying the
neutral tag. -/
def rawReply (transcriptText : String) (provider : Except Unit String) :
    String :=
  match (get_response transcriptText provider).2 with
  | Except.ok r => r
  | Except.error _ => "[neutral] 思考出现了一点问题..."

/-- src/app.py handle_text_flow, continued: the trace of observable effects
of one generate-plus-synthesize tail, in program order: the generation call
(rawReply above), the synthesis call, then either a null-url terminal
event, or the audio-file write, the terminal event and the two history
appends. -/
def handleTextFlow (transcriptText characterId : String)
    (provider : Except Unit String) (ttsOut : Bool) (filename : String) :
    List Step :=
  let gen := get_response transcriptText provider
  let parsed := extract_emotion_and_text (rawReply transcriptText provider)
  let emotion := parsed.1
  let cleanText := parsed.2
  Step.callLLM transcriptText gen.1 ::
  Step.callTTS cleanText characterId emotion ::
  (if ttsOut then
    [Step.writeAudio filename,
     Step.emit (Event.tts (some ("/static/tmp/" ++ filename)) cleanText emotion),
     Step.append Role.user transcriptText,
     Step.append Role.assistant cleanText]
  else
    [Step.emit (Event.tts none cleanText emotion)])

/-- Substring test on character lists: Python's `in` on str. -/
def containsSub (hay needle : List Char) : Bool :=
  hay.tails.any needle.isPrefixOf

/-- A structured inbound frame (a JSON object), with the four optional
fields the session inspects.  A missing key and a JSON null both map to
none; toStr below mirrors the str(...) coercion the code applies. -/
structure Payload where
  characterId : Option String
  ptype : Option String
  systemPrompt : Option String
  textInput : Option String
deriving DecidableEq, Repr

/-- Python truthiness of an optional string: present and non-empty. -/
def truthy : Option String → Bool
  | none => false
  | some s => s ≠ ""

/-- src/app.py websocket_chat, the character-id field of one structured
(textual JSON object) frame: switch the session's selection when the id
names a configured preset (acknowledging with an info event), otherwise
leave it unchanged with no event.  presets is the key list of
settings.character_presets in iteration order. -/
def characterSwitch (presets : List String) (characterId : String)
    (p : Payload) : String × List Step :=
  if truthy p.characterId then
    let cid := p.characterId.getD ""
    if presets.contains cid then
      (cid, [Step.emit (Event.info ("角色已切换为 " ++ cid))])
    else (characterId, [])
  else (characterId, [])

/-- src/app.py websocket_chat, handling of one structured frame: the
optional character switch, then either the persona update (set prompt,
clear history, acknowledge, stop processing the frame) or, failing that,
the text-input pipeline run on the stripped input.  The provider, synthesis
and filename oracles are passed through to handle_text_flow.  Returns the
new selection and the trace of observable effects. -/
def handleStructuredFrame (presets : List String) (characterId : String)
    (p : Payload) (provider : Except Unit String) (ttsOut : Bool)
    (filename : String) : String × List Step :=
  let switched := characterSwitch presets characterId p
  if truthy p.systemPrompt then
    (switched.1,
     switched.2 ++
       [Step.setPrompt (p.systemPrompt.getD ""),
        Step.clearHistory,
        Step.emit (Event.info "人设已更新成功！")])
  else if truthy p.textInput then
    (switched.1,
     switched.2 ++
       handleTextFlow (pyStrip (p.textInput.getD "")) switched.1 provider
         ttsOut filename)
  else switched

/-- src/app.py websocket_chat, the try block of one binary (audio) frame:
persist the raw clip, transcode it, transcribe it, emit the transcript
event, and run the pipeline tail when the transcript is non-empty.  Each
fallible step is an oracle whose error value is the exception's message
string.  Returns the steps performed before any exception together with the
raised message, if any. -/
def audioBody (characterId : String) (persist : Except String Unit)
    (transcodeRes : Except String Unit) (transcribeRes : Except String String)
    (provider : Except Unit String) (ttsOut : Bool) (filename : String) :
    List Step × Option String :=
  match persist with
  | Except.error m => ([], some m)
  | Except.ok _ =>
    match transcodeRes with
    | Except.error m => ([Step.writeScratch], some m)
    | Except.ok _ =>
      match transcribeRes with
      | Except.error m => ([Step.writeScratch, Step.transcode], some m)
      | Except.ok transcriptText =>
        let pre := [Step.writeScratch, Step.transcode,
                    Step.emit (Event.transcript transcriptText)]
        if transcriptText = "" then (pre, none)
        else
          (pre ++ handleTextFlow transcriptText characterId provider ttsOut
             filename, none)

/-- src/app.py websocket_chat, one binary (audio) frame end to end: the try
body, the except clause (an error event unless the exception's message
contains the substring 3307), and the finally clause (cleanup of both
scratch files, whose names derive from one fresh uuid hex: the raw
audio_uuid.webm clip and its transcoded audio_uuid.wav counterpart). -/
def handleAudioFrame (characterId : String) (uuidHex : String)
    (persist : Except String Unit) (transcodeRes : Except String Unit)
    (transcribeRes : Except String String) (provider : Except Unit String)
    (ttsOut : Bool) (filename : String) : List Step :=
  let body := audioBody characterId persist transcodeRes transcribeRes
    provider ttsOut filename
  let caught :=
    match body.2 with
    | some m =>
      if containsSub m.data "3307".data then []
      else [Step.emit (Event.error "无法识别语音")]
    | none => []
  body.1 ++ caught ++
    [Step.cleanup ("audio_" ++ uuidHex ++ ".webm")
      ("audio_" ++ uuidHex ++ ".wav")]

/-- src/app.py cleanup_files: best-effort deletion of each path.  The
filesystem is a list of existing paths; unlinkFails says whether unlinking
a given path raises OSError.  A missing path is skipped; a failed unlink is
logged and swallowed, so the function always returns a filesystem (it is
total: no error escapes). -/
def cleanup_files (fs : List String) (unlinkFails : String → Bool) :
    List String → List String
  | [] => fs
  | p :: rest =>
    let fs' :=
      if fs.contains p then
        if unlinkFails p then fs else fs.erase p
      else fs
    cleanup_files fs' unlinkFails rest

/-- src/app.py websocket_chat, initial character selection on accept:
start from the default id robin; if it is not a configured preset and at
least one preset exists, take the first preset in iteration order. -/
def selectCharacter (presets : List String) : String :=
  if !(presets.contains "robin") && !presets.isEmpty then
    presets.headD "robin"
  else "robin"

/-- Modelled from the spec (for comparison with selectCharacter, which is
the code's behaviour): the claim's reading of session-open character
selection, in which the selection is left unset (none) when no presets are
configured at all. -/
def selectCharacterSpec (presets : List String) : Option String :=
  if presets.isEmpty then none
  else if presets.contains "robin" then some "robin"
  else some (presets.headD "robin")

/-! ## Theorems -/

/-- Equation lemma: on a non-empty input the parser returns the first tag
(or neutral) with the trimmed residue, with the placeholder substituted
when the residue is empty. -/
theorem extract_eq (s : String) (h : s ≠ "") :
    extract_emotion_and_text s =
      if strippedResidue s = "" then (firstEmotion s, "...")
      else (firstEmotion s, strippedResidue s) := by
  unfold extract_emotion_and_text
  rw [if_neg h]

/-- C1 counterexample: on the empty input the parser returns the empty
clean text, not the fixed non-empty placeholder ("..."), so clean_text is
NOT guaranteed non-empty for every input; and on an input whose residue
after tag removal is empty the emotion key is the first tag's content, not
defaulted to neutral. -/
theorem c1_counterexample :
    extract_emotion_and_text "" = ("neutral", "") ∧
    (extract_emotion_and_text "").2 ≠ "..." ∧
    extract_emotion_and_text "[happy]" = ("happy", "...") ∧
    (extract_emotion_and_text "[happy]").1 ≠ "neutral" := by
  refine ⟨by decide, by decide, by decide, by decide⟩

/-- C1 (amended): for every NON-empty input, if the text left after
removing all bracketed tokens and trimming is empty, the parser substitutes
the fixed non-empty placeholder "..." while keeping the first tag's content
as the emotion key; consequently for every non-empty input the returned
clean_text is non-empty.  The empty input instead yields ("neutral", "")
with an empty clean text. -/
theorem c1_placeholder_nonempty (s : String) (h : s ≠ "") :
    (extract_emotion_and_text s).2 ≠ "" ∧
    (strippedResidue s = "" →
      extract_emotion_and_text s = (firstEmotion s, "...")) ∧
    extract_emotion_and_text "" = ("neutral", "") := by
  refine ⟨?_, ?_, by decide⟩
  · rw [extract_eq s h]
    by_cases hc : strippedResidue s = ""
    · rw [if_pos hc]
      show ("..." : String) ≠ ""
      decide
    · rw [if_neg hc]
      exact hc
  · intro hc
    rw [extract_eq s h, if_pos hc]

/-- C1 witness: the theorem applied at the concrete input "[sad]", whose
residue after tag removal is empty. -/
theorem c1_placeholder_nonempty_witness :
    ("[sad]" : String) ≠ "" ∧
    (extract_emotion_and_text "[sad]").2 ≠ "" ∧
    (strippedResidue "[sad]" = "" →
      extract_emotion_and_text "[sad]" = (firstEmotion "[sad]", "...")) ∧
    extract_emotion_and_text "" = ("neutral", "") := by
  refine ⟨by decide, c1_placeholder_nonempty "[sad]" (by decide)⟩

/-- C7: the parser takes the FIRST bracketed token's content as the emotion
(neutral when there is none), removes ALL bracketed tokens and trims to get
the clean text; in general, for every non-empty input whose trimmed residue
is non-empty, the result is exactly (first tag or neutral, trimmed
residue); and on the claim's example the result is ("happy", "hi there"). -/
theorem c7_first_tag_all_removed :
    extract_emotion_and_text "[happy] hi there [happy]" = ("happy", "hi there") ∧
    extract_emotion_and_text "[a][b] x" = ("a", "x") ∧
    extract_emotion_and_text "no tags" = ("neutral", "no tags") ∧
    ∀ s : String, s ≠ "" → strippedResidue s ≠ "" →
      extract_emotion_and_text s = (firstEmotion s, strippedResidue s) := by
  refine ⟨by decide, by decide, by decide, ?_⟩
  intro s h hc
  rw [extract_eq s h, if_neg hc]

/-- C7 witness: the general part of the theorem applied at the concrete
input "[sad] oh [few] no". -/
theorem c7_first_tag_all_removed_witness :
    ("[sad] oh [few] no" : String) ≠ "" ∧
    strippedResidue "[sad] oh [few] no" ≠ "" ∧
    extract_emotion_and_text "[sad] oh [few] no" =
      (firstEmotion "[sad] oh [few] no", strippedResidue "[sad] oh [few] no") := by
  refine ⟨by decide, by decide,
    c7_first_tag_all_removed.2.2.2 "[sad] oh [few] no" (by decide) (by decide)⟩

/-- C2: on a turn whose synthesis returns a payload, the trace is exactly
the generation call, the synthesis call, the audio-file write, the terminal
tts event carrying the file's reference path, the clean text and the
emotion, and only THEN the user append followed by the assistant append; so
the shared history grows by exactly two records (user then assistant), the
assistant record's content equals the terminal event's text field, and the
persona text is untouched. -/
theorem c2_success_emits_then_appends (tr cid : String)
    (provider : Except Unit String) (fn : String) (st : SharedState) :
    handleTextFlow tr cid provider true fn =
      [Step.callLLM tr (get_response tr provider).1,
       Step.callTTS (extract_emotion_and_text (rawReply tr provider)).2 cid
         (extract_emotion_and_text (rawReply tr provider)).1,
       Step.writeAudio fn,
       Step.emit (Event.tts (some ("/static/tmp/" ++ fn))
         (extract_emotion_and_text (rawReply tr provider)).2
         (extract_emotion_and_text (rawReply tr provider)).1),
       Step.append Role.user tr,
       Step.append Role.assistant
         (extract_emotion_and_text (rawReply tr provider)).2] ∧
    (runSteps st (handleTextFlow tr cid provider true fn)).history =
      st.history ++
        [(Role.user, tr),
         (Role.assistant, (extract_emotion_and_text (rawReply tr provider)).2)] ∧
    (runSteps st (handleTextFlow tr cid provider true fn)).history.length =
      st.history.length + 2 ∧
    (runSteps st (handleTextFlow tr cid provider true fn)).systemPrompt =
      st.systemPrompt := by
  have htrace : handleTextFlow tr cid provider true fn =
      [Step.callLLM tr (get_response tr provider).1,
       Step.callTTS (extract_emotion_and_text (rawReply tr provider)).2 cid
         (extract_emotion_and_text (rawReply tr provider)).1,
       Step.writeAudio fn,
       Step.emit (Event.tts (some ("/static/tmp/" ++ fn))
         (extract_emotion_and_text (rawReply tr provider)).2
         (extract_emotion_and_text (rawReply tr provider)).1),
       Step.append Role.user tr,
       Step.append Role.assistant
         (extract_emotion_and_text (rawReply tr provider)).2] := by
    simp [handleTextFlow]
  refine ⟨htrace, ?_, ?_, ?_⟩ <;>
    simp [htrace, runSteps, applyStep, List.append_assoc]

/-- C3: on a turn whose synthesis returns no payload, the trace is exactly
the generation call, the synthesis call and a terminal tts event with a
null url carrying the clean text and the emotion, and the shared state —
history and persona text alike — is left exactly as it was before the
turn. -/
theorem c3_tts_failure_no_mutation (tr cid : String)
    (provider : Except Unit String) (fn : String) (st : SharedState) :
    handleTextFlow tr cid provider false fn =
      [Step.callLLM tr (get_response tr provider).1,
       Step.callTTS (extract_emotion_and_text (rawReply tr provider)).2 cid
         (extract_emotion_and_text (rawReply tr provider)).1,
       Step.emit (Event.tts none
         (extract_emotion_and_text (rawReply tr provider)).2
         (extract_emotion_and_text (rawReply tr provider)).1)] ∧
    runSteps st (handleTextFlow tr cid provider false fn) = st := by
  have htrace : handleTextFlow tr cid provider false fn =
      [Step.callLLM tr (get_response tr provider).1,
       Step.callTTS (extract_emotion_and_text (rawReply tr provider)).2 cid
         (extract_emotion_and_text (rawReply tr provider)).1,
       Step.emit (Event.tts none
         (extract_emotion_and_text (rawReply tr provider)).2
         (extract_emotion_and_text (rawReply tr provider)).1)] := by
    simp [handleTextFlow]
  refine ⟨htrace, ?_⟩
  simp [htrace, runSteps, applyStep]

/-- The character-switch prefix of a structured frame is at most a single
info acknowledgement event. -/
theorem characterSwitch_trace (presets : List String) (cid : String)
    (p : Payload) :
    (characterSwitch presets cid p).2 = [] ∨
    ∃ c, (characterSwitch presets cid p).2 =
      [Step.emit (Event.info ("角色已切换为 " ++ c))] := by
  unfold characterSwitch
  split
  · dsimp only
    split
    · exact Or.inr ⟨_, rfl⟩
    · exact Or.inl rfl
  · exact Or.inl rfl

/-- C4: a structured frame carrying a non-empty persona-text field replaces
the shared persona text with that value, clears the whole turn history
(leaving it empty at the end of the frame), performs no pipeline step at
all (no generation or synthesis call, no transcript or terminal event, no
history append, no audio write), and its last effect is the informational
acknowledgement event. -/
theorem c4_persona_update (presets : List String) (cid : String)
    (p : Payload) (provider : Except Unit String) (ttsOut : Bool)
    (fn : String) (st : SharedState)
    (h : truthy p.systemPrompt = true) :
    ((handleStructuredFrame presets cid p provider ttsOut fn).2.all
      (fun s => !s.isPipelineStep)) = true ∧
    (runSteps st
      (handleStructuredFrame presets cid p provider ttsOut fn).2).history = [] ∧
    (runSteps st
      (handleStructuredFrame presets cid p provider ttsOut fn).2).systemPrompt
      = p.systemPrompt.getD "" ∧
    (handleStructuredFrame presets cid p provider ttsOut fn).2.getLast?
      = some (Step.emit (Event.info "人设已更新成功！")) := by
  have hframe : (handleStructuredFrame presets cid p provider ttsOut fn).2 =
      (characterSwitch presets cid p).2 ++
        [Step.setPrompt (p.systemPrompt.getD ""),
         Step.clearHistory,
         Step.emit (Event.info "人设已更新成功！")] := by
    simp [handleStructuredFrame, h]
  rcases characterSwitch_trace presets cid p with hsw | ⟨c, hsw⟩ <;>
    rw [hframe, hsw] <;>
    refine ⟨by simp [Step.isPipelineStep], ?_, ?_, by simp⟩ <;>
    simp [runSteps, applyStep]

/-- C4 witness: the theorem applied to a concrete persona-update frame
against a non-empty starting history. -/
theorem c4_persona_update_witness :
    truthy (Payload.mk none none (some "新的人设") none).systemPrompt = true ∧
    (((handleStructuredFrame ["robin"] "robin"
        (Payload.mk none none (some "新的人设") none)
        (Except.ok "r") true "f").2.all
      (fun s => !s.isPipelineStep)) = true ∧
    (runSteps (SharedState.mk "旧人设" [(Role.user, "a")])
      (handleStructuredFrame ["robin"] "robin"
        (Payload.mk none none (some "新的人设") none)
        (Except.ok "r") true "f").2).history = [] ∧
    (runSteps (SharedState.mk "旧人设" [(Role.user, "a")])
      (handleStructuredFrame ["robin"] "robin"
        (Payload.mk none none (some "新的人设") none)
        (Except.ok "r") true "f").2).systemPrompt
      = (Payload.mk none none (some "新的人设") none).systemPrompt.getD "" ∧
    (handleStructuredFrame ["robin"] "robin"
        (Payload.mk none none (some "新的人设") none)
        (Except.ok "r") true "f").2.getLast?
      = some (Step.emit (Event.info "人设已更新成功！"))) := by
  exact ⟨by decide,
    c4_persona_update ["robin"] "robin"
      (Payload.mk none none (some "新的人设") none) (Except.ok "r") true "f"
      (SharedState.mk "旧人设" [(Role.user, "a")]) (by decide)⟩

/-- C5: for an exception raised while persisting the raw clip, transcoding
it, or transcribing it, an error event is sent to the client if and only if
the exception's message does not contain the substring 3307; when it does,
the error is suppressed (no error event at all in the turn). -/
theorem c5_error_suppressed_iff_3307 (cid uuid m : String)
    (tc : Except String Unit) (tsc : Except String String)
    (provider : Except Unit String) (ttsOut : Bool) (fn : String) :
    ((eventsOf (handleAudioFrame cid uuid (Except.error m) tc tsc provider
        ttsOut fn)).filter Event.isError =
      if containsSub m.data "3307".data then []
      else [Event.error "无法识别语音"]) ∧
    ((eventsOf (handleAudioFrame cid uuid (Except.ok ()) (Except.error m) tsc
        provider ttsOut fn)).filter Event.isError =
      if containsSub m.data "3307".data then []
      else [Event.error "无法识别语音"]) ∧
    ((eventsOf (handleAudioFrame cid uuid (Except.ok ()) (Except.ok ())
        (Except.error m) provider ttsOut fn)).filter Event.isError =
      if containsSub m.data "3307".data then []
      else [Event.error "无法识别语音"]) := by
  by_cases hc : containsSub m.data "3307".data <;>
    refine ⟨?_, ?_, ?_⟩ <;>
    simp [handleAudioFrame, audioBody, eventsOf, hc, Event.isError]

/-- C8: an audio turn whose transcription result is the empty string
performs exactly the scratch write, the transcode, one transcript event
carrying the empty text, and the cleanup: one transcript event, zero
terminal tts events, no generation or synthesis call, falling through to
cleanup. -/
theorem c8_empty_transcript_ends_turn (cid uuid : String)
    (provider : Except Unit String) (ttsOut : Bool) (fn : String) :
    handleAudioFrame cid uuid (Except.ok ()) (Except.ok ()) (Except.ok "")
        provider ttsOut fn =
      [Step.writeScratch, Step.transcode, Step.emit (Event.transcript ""),
       Step.cleanup ("audio_" ++ uuid ++ ".webm")
         ("audio_" ++ uuid ++ ".wav")] ∧
    (eventsOf (handleAudioFrame cid uuid (Except.ok ()) (Except.ok ())
        (Except.ok "") provider ttsOut fn)).filter Event.isTranscript =
      [Event.transcript ""] ∧
    (eventsOf (handleAudioFrame cid uuid (Except.ok ()) (Except.ok ())
        (Except.ok "") provider ttsOut fn)).filter Event.isTts = [] ∧
    (handleAudioFrame cid uuid (Except.ok ()) (Except.ok ()) (Except.ok "")
        provider ttsOut fn).all (fun s => !s.isCollaboratorCall) = true := by
  have htrace : handleAudioFrame cid uuid (Except.ok ()) (Except.ok ())
      (Except.ok "") provider ttsOut fn =
      [Step.writeScratch, Step.transcode, Step.emit (Event.transcript ""),
       Step.cleanup ("audio_" ++ uuid ++ ".webm")
         ("audio_" ++ uuid ++ ".wav")] := by
    simp [handleAudioFrame, audioBody]
  refine ⟨htrace, ?_, ?_, ?_⟩ <;>
    simp [htrace, eventsOf, Event.isTranscript, Event.isTts,
      Step.isCollaboratorCall]

/-- C6: every audio turn, whatever the outcome of each stage, ends with the
cleanup call over the two scratch files; and the cleanup routine itself is
total and best-effort: a path absent from the filesystem is skipped, a path
whose unlink raises is swallowed (the routine still returns, with the
filesystem unchanged for that path), and an existing path whose unlink
succeeds is removed. -/
theorem c6_cleanup_always_runs (cid uuid : String)
    (persist tc : Except String Unit)
    (tsc : Except String String) (provider : Except Unit String)
    (ttsOut : Bool) (fn : String) (fs : List String) (u : String → Bool)
    (p : String) (rest : List String) :
    (handleAudioFrame cid uuid persist tc tsc provider ttsOut fn).getLast? =
      some (Step.cleanup ("audio_" ++ uuid ++ ".webm")
        ("audio_" ++ uuid ++ ".wav")) ∧
    (fs.contains p = false →
      cleanup_files fs u (p :: rest) = cleanup_files fs u rest) ∧
    (u p = true →
      cleanup_files fs u (p :: rest) = cleanup_files fs u rest) ∧
    (fs.contains p = true → u p = false →
      cleanup_files fs u (p :: rest) = cleanup_files (fs.erase p) u rest) := by
  refine ⟨?_, ?_, ?_, ?_⟩
  · simp [handleAudioFrame]
  · intro h
    have h' : ¬ p ∈ fs := by simpa using h
    simp [cleanup_files, h']
  · intro h
    by_cases hm : p ∈ fs <;> simp [cleanup_files, h, hm]
  · intro h h2
    have h' : p ∈ fs := by simpa using h
    simp [cleanup_files, h', h2]

/-- C6 witness: the theorem applied at concrete inputs covering a
successful turn, an absent path, a failing unlink, and a successful
unlink. -/
theorem c6_cleanup_always_runs_witness :
    (handleAudioFrame "robin" "0a1b" (Except.ok ()) (Except.ok ())
      (Except.ok "嗨") (Except.ok "[happy] 好") true "f.wav").getLast? =
      some (Step.cleanup ("audio_" ++ "0a1b" ++ ".webm")
        ("audio_" ++ "0a1b" ++ ".wav")) ∧
    cleanup_files ["a"] (fun _ => false) ("b" :: []) =
      cleanup_files ["a"] (fun _ => false) [] ∧
    cleanup_files ["a"] (fun _ => true) ("a" :: []) =
      cleanup_files ["a"] (fun _ => true) [] ∧
    cleanup_files ["a"] (fun _ => false) ("a" :: []) =
      cleanup_files (["a"].erase "a") (fun _ => false) [] := by
  refine ⟨(c6_cleanup_always_runs "robin" "0a1b" (Except.ok ()) (Except.ok ())
      (Except.ok "嗨") (Except.ok "[happy] 好") true "f.wav" [] (fun _ => false)
      "" []).1, ?_, ?_, ?_⟩
  · exact (c6_cleanup_always_runs "robin" "0a1b" (Except.ok ()) (Except.ok ())
      (Except.ok "嗨") (Except.ok "[happy] 好") true "f.wav" ["a"]
      (fun _ => false) "b" []).2.1 (by decide)
  · exact (c6_cleanup_always_runs "robin" "0a1b" (Except.ok ()) (Except.ok ())
      (Except.ok "嗨") (Except.ok "[happy] 好") true "f.wav" ["a"]
      (fun _ => true) "a" []).2.2.1 rfl
  · exact (c6_cleanup_always_runs "robin" "0a1b" (Except.ok ()) (Except.ok ())
      (Except.ok "嗨") (Except.ok "[happy] 好") true "f.wav" ["a"]
      (fun _ => false) "a" []).2.2.2 (by decide) rfl

/-- C9 counterexample: with no presets configured the code keeps the
default id robin as the selection, while the claim's reading leaves the
selection unset (none). -/
theorem c9_counterexample :
    selectCharacter [] = "robin" ∧ selectCharacterSpec [] = none := by
  exact ⟨by decide, by decide⟩

/-- C9 (amended): on session open the selected character id is the default
id robin; if that default is not among the configured presets and at least
one preset is configured, the selection becomes the first preset in
iteration order; and if no presets are configured at all, the selection
REMAINS the default id robin (it is not left unset). -/
theorem c9_default_selection (presets : List String) :
    (presets.contains "robin" = true → selectCharacter presets = "robin") ∧
    (presets.contains "robin" = false → presets ≠ [] →
      selectCharacter presets = presets.headD "robin") ∧
    selectCharacter [] = "robin" := by
  refine ⟨?_, ?_, by decide⟩
  · intro h
    have h' : "robin" ∈ presets := by simpa using h
    simp [selectCharacter, h']
  · intro h hne
    have h' : ¬ "robin" ∈ presets := by simpa using h
    simp [selectCharacter, h', hne]

/-- C9 witness: the theorem applied with the default present, with the
default absent among two presets, and with no presets at all. -/
theorem c9_default_selection_witness :
    selectCharacter ["robin", "alice"] = "robin" ∧
    selectCharacter ["alice", "bob"] = ["alice", "bob"].headD "robin" ∧
    selectCharacter [] = "robin" := by
  exact ⟨(c9_default_selection ["robin", "alice"]).1 (by decide),
    (c9_default_selection ["alice", "bob"]).2.1 (by decide) (by decide),
    (c9_default_selection []).2.2⟩

/-- The character-switch prefix leaves the shared state untouched when run
before any other steps. -/
theorem runSteps_switch_front (presets : List String) (cid : String)
    (p : Payload) (st : SharedState) (steps : List Step) :
    runSteps st ((characterSwitch presets cid p).2 ++ steps) =
      runSteps st steps := by
  rcases characterSwitch_trace presets cid p with h | ⟨c, h⟩ <;>
    simp [h, runSteps, applyStep]

/-- The character-switch prefix contributes no terminal tts event. -/
theorem eventsOf_switch_front (presets : List String) (cid : String)
    (p : Payload) (steps : List Step) :
    (eventsOf ((characterSwitch presets cid p).2 ++ steps)).filter
        Event.isTts =
      (eventsOf steps).filter Event.isTts := by
  rcases characterSwitch_trace presets cid p with h | ⟨c, h⟩ <;>
    simp [h, eventsOf, Event.isTts]

/-- C10: a structured frame whose text_input is non-empty but all
whitespace (and which carries no persona update) still runs the full turn
pipeline with the empty transcript: the generation client is called with
empty user text and answers with the fixed canned reply without contacting
the provider, synthesis is called on the canned reply's clean text with the
neutral emotion, exactly one terminal tts event is emitted, and on
synthesis success the shared history grows by the user record with empty
content followed by the assistant record carrying the canned reply. -/
theorem c10_whitespace_input_runs_pipeline (presets : List String)
    (cid : String) (p : Payload) (t : String)
    (provider : Except Unit String) (ttsOut : Bool) (fn : String)
    (st : SharedState) (hsp : truthy p.systemPrompt = false)
    (ht : p.textInput = some t) (hne : t ≠ "") (hws : pyStrip t = "") :
    Step.callLLM "" false ∈
      (handleStructuredFrame presets cid p provider ttsOut fn).2 ∧
    Step.callTTS "诶？你在发呆吗？"
        (handleStructuredFrame presets cid p provider ttsOut fn).1 "neutral" ∈
      (handleStructuredFrame presets cid p provider ttsOut fn).2 ∧
    ((eventsOf (handleStructuredFrame presets cid p provider ttsOut
        fn).2).filter Event.isTts).length = 1 ∧
    (ttsOut = true →
      (runSteps st (handleStructuredFrame presets cid p provider ttsOut
          fn).2).history =
        st.history ++ [(Role.user, ""), (Role.assistant, "诶？你在发呆吗？")]) := by
  have hraw : rawReply "" provider = "[neutral] 诶？你在发呆吗？" := rfl
  have hex : extract_emotion_and_text (rawReply "" provider) =
      ("neutral", "诶？你在发呆吗？") := by
    rw [hraw]
    decide
  have hgen : get_response "" provider =
      (false, Except.ok "[neutral] 诶？你在发呆吗？") := rfl
  have htr : truthy p.textInput = true := by
    rw [ht]
    simpa [truthy] using hne
  have hgd : pyStrip (p.textInput.getD "") = "" := by
    rw [ht]
    exact hws
  have hframe : handleStructuredFrame presets cid p provider ttsOut fn =
      ((characterSwitch presets cid p).1,
       (characterSwitch presets cid p).2 ++
         handleTextFlow "" (characterSwitch presets cid p).1 provider ttsOut
           fn) := by
    simp [handleStructuredFrame, hsp, htr, hgd]
  have htf : ∀ c : String, handleTextFlow "" c provider ttsOut fn =
      Step.callLLM "" false ::
      Step.callTTS "诶？你在发呆吗？" c "neutral" ::
      (if ttsOut then
        [Step.writeAudio fn,
         Step.emit (Event.tts (some ("/static/tmp/" ++ fn)) "诶？你在发呆吗？"
           "neutral"),
         Step.append Role.user "",
         Step.append Role.assistant "诶？你在发呆吗？"]
      else [Step.emit (Event.tts none "诶？你在发呆吗？" "neutral")]) := by
    intro c
    simp [handleTextFlow, hex, hgen]
  refine ⟨?_, ?_, ?_, ?_⟩
  · rw [hframe]
    exact List.mem_append_right _ (by rw [htf]; exact List.mem_cons_self _ _)
  · rw [hframe]
    exact List.mem_append_right _
      (by rw [htf]; exact List.mem_cons_of_mem _ (List.mem_cons_self _ _))
  · rw [hframe]
    dsimp only
    rw [eventsOf_switch_front, htf]
    cases ttsOut <;> simp [eventsOf, Event.isTts]
  · intro htts
    rw [hframe]
    dsimp only
    rw [runSteps_switch_front, htf, htts]
    simp [runSteps, applyStep, List.append_assoc]

/-- C10 witness: the theorem applied to a concrete frame whose text_input
is three spaces, with a successful synthesis. -/
theorem c10_whitespace_input_runs_pipeline_witness :
    Step.callLLM "" false ∈
      (handleStructuredFrame ["robin"] "robin"
        (Payload.mk none none none (some "   "))
        (Except.ok "好的") true "f.wav").2 ∧
    Step.callTTS "诶？你在发呆吗？"
        (handleStructuredFrame ["robin"] "robin"
          (Payload.mk none none none (some "   "))
          (Except.ok "好的") true "f.wav").1 "neutral" ∈
      (handleStructuredFrame ["robin"] "robin"
        (Payload.mk none none none (some "   "))
        (Except.ok "好的") true "f.wav").2 ∧
    ((eventsOf (handleStructuredFrame ["robin"] "robin"
        (Payload.mk none none none (some "   "))
        (Except.ok "好的") true "f.wav").2).filter Event.isTts).length = 1 ∧
    (true = true →
      (runSteps (SharedState.mk "人设" [])
        (handleStructuredFrame ["robin"] "robin"
          (Payload.mk none none none (some "   "))
          (Except.ok "好的") true "f.wav").2).history =
        (SharedState.mk "人设" []).history ++
          [(Role.user, ""), (Role.assistant, "诶？你在发呆吗？")]) := by
  exact c10_whitespace_input_runs_pipeline ["robin"] "robin"
    (Payload.mk none none none (some "   ")) "   " (Except.ok "好的") true
    "f.wav" (SharedState.mk "人设" []) (by decide) rfl (by decide) (by decide)

end CyberIdol
